import Mathlib

/-!
Verification of the deployment orchestration logic of `hardhat.config.ts`
(the `deploy` hardhat task): network capability tables, gas-price
conversion, the validation/defaulting pipeline, conditional oracle wiring,
and the manifest writer, as a shallow embedding with behavioural proofs.
-/

namespace LibEthers

/-! ## Static tables (from `hardhat.config.ts` lines 25, 54, 66-89) -/

/-- Number of accounts configured for the local networks (`numAccounts`). -/
def numAccounts : Nat := 100

/-- The fixed well-known rich key for the dev chain (`devChainRichAccount`). -/
def devChainRichAccount : String :=
  "0x4d5db4107d237df6a3d58ee5f70ae63d73d7658d4026f2eefd2f204c81682cb7"

/-- The oracle address table (`oracleAddresses`): network name to
(chainlink address, tellor address). -/
def oracleAddresses : List (String × String × String) :=
  [("mainnet", ("0x5f4eC3Df9cbd43714FE2740f5E3616155c5b8419",
                "0x88dF592F8eb5D7Bd38bFeF7dEb0fBc02cf3778a0")),
   ("rinkeby", ("0x8A753747A1Fa494EC906cE90E9f37563A8AF630e",
                "0x88dF592F8eb5D7Bd38bFeF7dEb0fBc02cf3778a0")),
   ("kovan",   ("0x9326BFA02ADD2366b30bacB125260Af641031331",
                "0x20374E579832859f180536A69093A126Db1c8aE9"))]

/-- The capability predicate `hasOracles`: membership in the key set of
`oracleAddresses`. -/
def hasOracles (network : String) : Bool :=
  (oracleAddresses.find? (fun kv => kv.1 == network)).isSome

/-- Lookup `oracleAddresses[network].chainlink`; only meaningful after
`hasOracles network` returned true. -/
def oracleChainlink (network : String) : String :=
  ((oracleAddresses.find? (fun kv => kv.1 == network)).map (fun kv => kv.2.1)).getD ""

/-- Lookup `oracleAddresses[network].tellor`; only meaningful after
`hasOracles network` returned true. -/
def oracleTellor (network : String) : String :=
  ((oracleAddresses.find? (fun kv => kv.1 == network)).map (fun kv => kv.2.2)).getD ""

/-- The wrapped-native-token address table (`wiotxAddresses`). -/
def wiotxAddresses : List (String × String) :=
  [("mainnet", "0xa00744882684c3e4747faefd68d283ea44099d03"),
   ("testnet", "0xff5fae9fe685b90841275e32c348dc4426190db0")]

/-- The capability predicate `hasWIOTX`: membership in the key set of
`wiotxAddresses`. -/
def hasWIOTX (network : String) : Bool :=
  (wiotxAddresses.find? (fun kv => kv.1 == network)).isSome

/-- Lookup `wiotxAddresses[network]`; only meaningful after `hasWIOTX network`
returned true. -/
def wiotxAddr (network : String) : String :=
  ((wiotxAddresses.find? (fun kv => kv.1 == network)).map (fun kv => kv.2)).getD ""

/-! ## Account generation (`generateRandomAccounts`, dev network accounts) -/

/-- The loop of `generateRandomAccounts`: fills an array of length
`numberOfAccounts` with keys from the (nondeterministic) key source
`createRandom`, modelled as one fresh key per loop index. -/
def generateRandomAccounts (createRandom : Nat → String) (numberOfAccounts : Nat) :
    List String :=
  (List.range numberOfAccounts).map createRandom

/-- The dev network's account list (`config.networks.dev.accounts`):
`[deployerAccount, devChainRichAccount, ...generateRandomAccounts (numAccounts - 2)]`. -/
def devAccounts (createRandom : Nat → String) (deployerAccount : String) : List String :=
  deployerAccount :: devChainRichAccount ::
    generateRandomAccounts createRandom (numAccounts - 2)

/-! ## Gas price conversion

The task computes `gasPrice && Decimal.from(gasPrice).div(1000000000).hex`.
`Decimal` is the 18-decimal-digit fixed-point number of `@liquity/lib-base`:
`Decimal.from(x)` stores `floor(x * 10^18)` in an ethers `BigNumber`,
`div` is `this * 10^18 / divisor` on the stored values (integer division),
and `.hex` is the stored value's `toHexString()` (lowercase, `0x`-prefixed,
padded to an even number of hex digits). A CLI float `gasPrice` is modelled
exactly as a nonnegative decimal `mantissa / 10^exponent`. -/

/-- A nonnegative decimal number `mantissa / 10 ^ exponent`, the exact value
of the CLI's float `gasPrice` parameter. -/
structure FloatVal where
  mantissa : Nat
  exponent : Nat
  deriving DecidableEq, Repr

/-- The fixed-point scale of `Decimal` (`10^18`). -/
def decimalPrecision : Nat := 10 ^ 18

/-- Stored value of `Decimal.from` on the decimal `g` : `floor(g * 10^18)`. -/
def decimalFrom (g : FloatVal) : Nat :=
  g.mantissa * decimalPrecision / 10 ^ g.exponent

/-- Stored value of `Decimal.div` by the integer `n`:
`this * 10^18 / (n * 10^18)` (the divisor is `Decimal.from n`). -/
def decimalDivNat (stored n : Nat) : Nat :=
  stored * decimalPrecision / (n * decimalPrecision)

/-- Ethers `BigNumber.toHexString`: lowercase hex digits, `0x` prefix,
left-padded with `0` to an even number of digits. -/
def toHexString (n : Nat) : String :=
  let ds := Nat.toDigits 16 n
  let ds := if ds.length % 2 = 1 then '0' :: ds else ds
  "0x" ++ String.mk ds

/-- The wei value of `g` Gwei (`g * 10^9`), rounded down to a Nat. -/
def gweiToWei (g : FloatVal) : Nat :=
  g.mantissa * 10 ^ 9 / 10 ^ g.exponent

/-- The value of `overrides.gasPrice` in the task: JavaScript
`gasPrice && Decimal.from(gasPrice).div(1000000000).hex` is `undefined` when
the parameter is absent, the raw number itself when it is falsy (zero), and
the hex string otherwise. -/
inductive OverridesGasPrice where
  | undef
  | num (value : FloatVal)
  | hexStr (s : String)
  deriving DecidableEq, Repr

/-- The `overrides` computation of the deploy task (line 189):
`gasPrice && Decimal.from(gasPrice).div(1000000000).hex`. -/
def resolveOverridesGasPrice : Option FloatVal → OverridesGasPrice
  | none => .undef
  | some g =>
    if g.mantissa = 0 then .num g
    else .hexStr (toHexString (decimalDivNat (decimalFrom g) 1000000000))

/-! ## The deploy task -/

/-- Resolution of the optional `useRealPriceFeed` parameter (line 192):
`useRealPriceFeed ??= env.network.name === "mainnet"`. -/
def resolveUseRealPriceFeed (param : Option Bool) (network : String) : Bool :=
  param.getD (network == "mainnet")

/-- Errors a run of the deploy task can end with. -/
inductive Err where
  | config (msg : String)
  | assertion
  | external (msg : String)
  deriving DecidableEq, Repr

/-- The record returned by the external `deployAndSetupContracts` procedure,
before the version stamp. Modelled from the spec: the procedure and
`_LiquityDeploymentJSON` live outside this file's sources; the spec describes
the record as opaque per-contract deployment data, modelled as a flat list of
key/value fields. -/
structure RawDeployment where
  fields : List (String × String)
  deriving DecidableEq, Repr

/-- A deployment record after `deployLiquity` stamps the version
(`{ ...deployment, version: contractsVersion }`). -/
structure Deployment where
  fields : List (String × String)
  version : String
  deriving DecidableEq, Repr

/-- The version stamp of `env.deployLiquity`:
`{ ...deployment, version: contractsVersion }`. -/
def stampVersion (raw : RawDeployment) (version : String) : Deployment :=
  ⟨raw.fields, version⟩

/-- The external environment of one run: the startup-resolved contracts
version and the outcomes the transaction substrate produces for each external
call the task makes. `priceFeedIsTestnet` is the value of
`_priceFeedIsTestnet(contracts.priceFeed)` on the deployed contracts
(modelled from the spec: whether the deployed price feed is the test/mock
variant). -/
structure World where
  contractsVersion : String
  deployResult : Except String RawDeployment
  priceFeedIsTestnet : Bool
  tellorResult : Except String String
  setAddressesResult : Except String Unit

/-- The externally observable actions of one run, in order: the
`deployLiquity` call, the `deployTellorCaller` call, the price feed's
`setAddresses` call, and the two file-system calls of the manifest writer. -/
inductive Event where
  | deployLiquityCall (useRealPriceFeed : Bool) (wiotxAddress : Option String)
      (gasPrice : OverridesGasPrice)
  | deployTellorCallerCall (tellorAddress : String) (gasPrice : OverridesGasPrice)
  | setAddressesCall (chainlinkAddress : String) (tellorCallerAddress : String)
      (gasPrice : OverridesGasPrice)
  | mkdirRecursive (dir : List String)
  | writeFile (path : List String) (contents : String)
  deriving DecidableEq, Repr

/-- Resolution of `wiotxAddress` (lines 198-204): `undefined` unless
`createUniswapPair` is true, in which case the network must be in
`wiotxAddresses` or the task throws. -/
def resolveWiotxAddress (createUniswapPairParam : Option Bool) (network : String) :
    Except Err (Option String) :=
  if createUniswapPairParam.getD false then
    if hasWIOTX network then Except.ok (some (wiotxAddr network))
    else Except.error (Err.config ("WETH not deployed on " ++ network))
  else Except.ok none

/-- The conditional oracle wiring block (lines 210-233): when
`useRealPriceFeed`, assert the deployed price feed is not the testnet
variant, then, when the network has oracles, deploy the `TellorCaller`
adapter against the network's tellor address and call
`priceFeed.setAddresses(chainlink, tellorCallerAddress, overrides)`,
awaiting the transaction. Returns the outcome and the wiring events. -/
def oracleWiring (w : World) (network : String) (ogp : OverridesGasPrice)
    (useRealPriceFeed : Bool) : Except Err Unit × List Event :=
  if useRealPriceFeed then
    if w.priceFeedIsTestnet then (Except.error Err.assertion, [])
    else if hasOracles network then
      let evDeploy := Event.deployTellorCallerCall (oracleTellor network) ogp
      match w.tellorResult with
      | Except.error e => (Except.error (Err.external e), [evDeploy])
      | Except.ok tellorCallerAddress =>
        let evSet := Event.setAddressesCall (oracleChainlink network)
          tellorCallerAddress ogp
        match w.setAddressesResult with
        | Except.error e => (Except.error (Err.external e), [evDeploy, evSet])
        | Except.ok _ => (Except.ok (), [evDeploy, evSet])
    else (Except.ok (), [])
  else (Except.ok (), [])

/-- The directory the manifest writer creates:
`path.join("deployments", channel)`. -/
def manifestDir (channel : String) : List String :=
  ["deployments", channel]

/-- The manifest path: `path.join("deployments", channel, network + ".json")`. -/
def manifestPath (channel network : String) : List String :=
  ["deployments", channel, network ++ ".json"]

/-- One JSON-escaped character (quotes and backslashes). -/
def jsonEscapeChar (c : Char) : String :=
  if c = '"' then "\\\"" else if c = '\\' then "\\\\" else String.singleton c

/-- JSON string escaping for the serialized record's fields. -/
def jsonEscape (s : String) : String :=
  String.join (s.toList.map jsonEscapeChar)

/-- One 2-space-indented field line of the serialized record. -/
def stringifyEntry (kv : String × String) : String :=
  "  \"" ++ jsonEscape kv.1 ++ "\": \"" ++ jsonEscape kv.2 ++ "\""

/-- `JSON.stringify(deployment, undefined, 2)` on the flat deployment record:
the spread fields followed by the `version` field, indented by two spaces. -/
def stringifyDeployment (d : Deployment) : String :=
  "\x7b\n" ++
    String.intercalate ",\n" ((d.fields ++ [("version", d.version)]).map stringifyEntry) ++
    "\n\x7d"

/-- The `deploy` task's action (lines 187-246): compute overrides, resolve
`useRealPriceFeed`, validate oracle support, resolve `wiotxAddress`
(validating wrapped-token support), run `deployLiquity`, conditionally wire
oracles, and write the manifest. Returns the run's outcome and the ordered
list of externally observable events. -/
def deployTask (w : World) (network channel : String) (gasPrice : Option FloatVal)
    (useRealPriceFeedParam : Option Bool) (createUniswapPairParam : Option Bool) :
    Except Err Unit × List Event :=
  let ogp := resolveOverridesGasPrice gasPrice
  let useRealPriceFeed := resolveUseRealPriceFeed useRealPriceFeedParam network
  if useRealPriceFeed && !hasOracles network then
    (Except.error (Err.config ("PriceFeed not supported on " ++ network)), [])
  else
    match resolveWiotxAddress createUniswapPairParam network with
    | Except.error e => (Except.error e, [])
    | Except.ok wiotxAddress =>
      match w.deployResult with
      | Except.error e =>
        (Except.error (Err.external e),
          [Event.deployLiquityCall useRealPriceFeed wiotxAddress ogp])
      | Except.ok raw =>
        let deployment := stampVersion raw w.contractsVersion
        match oracleWiring w network ogp useRealPriceFeed with
        | (Except.error e, evs) =>
          (Except.error e, Event.deployLiquityCall useRealPriceFeed wiotxAddress ogp :: evs)
        | (Except.ok _, evs) =>
          (Except.ok (),
            Event.deployLiquityCall useRealPriceFeed wiotxAddress ogp ::
              (evs ++ [Event.mkdirRecursive (manifestDir channel),
                Event.writeFile (manifestPath channel network)
                  (stringifyDeployment deployment)]))

/-! ## File-system model

`fs.mkdirSync(dir, recursive)` creates the directory and all its ancestors;
`fs.writeFileSync(path, data)` replaces the file at `path` with exactly
`data` (the default flag truncates any existing file). -/

/-- A file system: the set of existing directories and a map from paths to
file contents (most recent write first, one entry per path). -/
structure FS where
  dirs : List (List String)
  files : List (List String × String)

/-- `fs.mkdirSync(dir, recursive := true)`: adds every nonempty prefix of
`dir` to the existing directories. -/
def FS.mkdirRecursive (fs : FS) (dir : List String) : FS :=
  ⟨(List.range dir.length).map (fun i => dir.take (i + 1)) ++ fs.dirs, fs.files⟩

/-- `fs.writeFileSync(p, c)`: replaces whatever was at `p` with `c`. -/
def FS.writeFileSync (fs : FS) (p : List String) (c : String) : FS :=
  ⟨fs.dirs, (p, c) :: fs.files.filter (fun kv => kv.1 ≠ p)⟩

/-- The contents at path `p`, when a file exists there. -/
def FS.readFile (fs : FS) (p : List String) : Option String :=
  (fs.files.find? (fun kv => kv.1 = p)).map (fun kv => kv.2)

/-- Effect of one event on the file system (only the two `fs` calls act). -/
def FS.applyEvent (fs : FS) : Event → FS
  | Event.mkdirRecursive dir => fs.mkdirRecursive dir
  | Event.writeFile p c => fs.writeFileSync p c
  | _ => fs

/-- Replay a run's event list against a file system. -/
def FS.runEvents (fs : FS) (events : List Event) : FS :=
  events.foldl FS.applyEvent fs

/-- A concrete external environment in which every external call succeeds. -/
def sampleWorld : World :=
  ⟨"1.0.0", Except.ok ⟨[("priceFeed", "0x1111")]⟩, false, Except.ok "0x2222",
    Except.ok ()⟩

/-- A second concrete environment, producing a different record and version. -/
def sampleWorld2 : World :=
  ⟨"2.0.0", Except.ok ⟨[("priceFeed", "0x3333")]⟩, false, Except.ok "0x4444",
    Except.ok ()⟩

/-! ## Helper lemmas about runs of the deploy task -/

/-- The oracle wiring block only ever emits adapter-deployment and
`setAddresses` events. -/
theorem oracleWiring_events (w : World) (n : String) (ogp : OverridesGasPrice)
    (u : Bool) :
    ∀ ev ∈ (oracleWiring w n ogp u).2,
      (∃ t g, ev = Event.deployTellorCallerCall t g) ∨
      ∃ c t g, ev = Event.setAddressesCall c t g := by
  intro ev hev
  unfold oracleWiring at hev
  cases u with
  | false => simp at hev
  | true =>
    by_cases hpf : w.priceFeedIsTestnet = true
    · simp [hpf] at hev
    · by_cases ho : hasOracles n = true
      · rcases ht : w.tellorResult with e | addr
        · simp [hpf, ho, ht] at hev
          exact Or.inl ⟨_, _, hev⟩
        · rcases hs : w.setAddressesResult with e | u2
          · simp [hpf, ho, ht, hs] at hev
            rcases hev with h | h
            · exact Or.inl ⟨_, _, h⟩
            · exact Or.inr ⟨_, _, _, h⟩
          · simp [hpf, ho, ht, hs] at hev
            rcases hev with h | h
            · exact Or.inl ⟨_, _, h⟩
            · exact Or.inr ⟨_, _, _, h⟩
      · simp [hpf, ho] at hev

/-- When validation passes, the run's first event is the `deployLiquity` call
with the resolved flag, wrapped-token address and overrides. -/
theorem deployTask_trace_cons (w : World) (n ch : String) (gp : Option FloatVal)
    (uP cP : Option Bool) (a : Option String)
    (hcond : (resolveUseRealPriceFeed uP n && !hasOracles n) = false)
    (hw : resolveWiotxAddress cP n = Except.ok a) :
    ∃ rest, (deployTask w n ch gp uP cP).2 =
      Event.deployLiquityCall (resolveUseRealPriceFeed uP n) a
        (resolveOverridesGasPrice gp) :: rest := by
  unfold deployTask
  rcases hres : w.deployResult with e | r
  · simp [hcond, hw, hres]
  · rcases hW : oracleWiring w n (resolveOverridesGasPrice gp)
      (resolveUseRealPriceFeed uP n) with ⟨res, evs⟩
    rcases res with e | u
    · simp [hcond, hw, hres, hW]
    · simp [hcond, hw, hres, hW]

/-- A successful run's trace ends with the manifest writer's two file-system
calls: the recursive `mkdir` of the channel directory, then the write of the
version-stamped record's serialization to the manifest path. -/
theorem deployTask_ok_trace (w : World) (n ch : String) (gp : Option FloatVal)
    (uP cP : Option Bool)
    (h : (deployTask w n ch gp uP cP).1 = Except.ok ()) :
    ∃ r pre, w.deployResult = Except.ok r ∧
      (deployTask w n ch gp uP cP).2 =
        pre ++ [Event.mkdirRecursive (manifestDir ch),
          Event.writeFile (manifestPath ch n)
            (stringifyDeployment (stampVersion r w.contractsVersion))] := by
  unfold deployTask at h ⊢
  by_cases hcond : (resolveUseRealPriceFeed uP n && !hasOracles n) = true
  · simp [hcond] at h
  · rcases hw : resolveWiotxAddress cP n with e | a
    · simp [hcond, hw] at h
    · rcases hres : w.deployResult with e | r
      · simp [hcond, hw, hres] at h
      · rcases hW : oracleWiring w n (resolveOverridesGasPrice gp)
          (resolveUseRealPriceFeed uP n) with ⟨res, evs⟩
        rcases res with e | u
        · simp [hcond, hw, hres, hW] at h
        · refine ⟨r, Event.deployLiquityCall (resolveUseRealPriceFeed uP n) a
            (resolveOverridesGasPrice gp) :: evs, rfl, ?_⟩
          simp [hcond, hw, hres, hW]

/-- Any manifest-write event in a run's trace implies the run succeeded, the
path is the manifest path, the contents are the serialized stamped record,
and the write is the trace's final event. -/
theorem deployTask_write_mem (w : World) (n ch : String) (gp : Option FloatVal)
    (uP cP : Option Bool) (p : List String) (s : String)
    (hmem : Event.writeFile p s ∈ (deployTask w n ch gp uP cP).2) :
    (deployTask w n ch gp uP cP).1 = Except.ok () ∧ p = manifestPath ch n ∧
    ∃ r pre, w.deployResult = Except.ok r ∧
      s = stringifyDeployment (stampVersion r w.contractsVersion) ∧
      (deployTask w n ch gp uP cP).2 =
        pre ++ [Event.mkdirRecursive (manifestDir ch), Event.writeFile p s] := by
  unfold deployTask at hmem ⊢
  by_cases hcond : (resolveUseRealPriceFeed uP n && !hasOracles n) = true
  · simp [hcond] at hmem
  · rcases hw : resolveWiotxAddress cP n with e | a
    · simp [hcond, hw] at hmem
    · rcases hres : w.deployResult with e | r
      · simp [hcond, hw, hres] at hmem
      · rcases hW : oracleWiring w n (resolveOverridesGasPrice gp)
          (resolveUseRealPriceFeed uP n) with ⟨res, evs⟩
        rcases res with e | u
        · simp [hcond, hw, hres, hW] at hmem
          rcases oracleWiring_events w n (resolveOverridesGasPrice gp)
              (resolveUseRealPriceFeed uP n) (Event.writeFile p s)
              (by rw [hW]; exact hmem) with ⟨t, g, h3⟩ | ⟨c, t, g, h3⟩ <;>
            simp at h3
        · simp [hcond, hw, hres, hW] at hmem
          rcases hmem with h | ⟨hp, hs⟩
          · rcases oracleWiring_events w n (resolveOverridesGasPrice gp)
                (resolveUseRealPriceFeed uP n) (Event.writeFile p s)
                (by rw [hW]; exact h) with ⟨t, g, h3⟩ | ⟨c, t, g, h3⟩ <;>
              simp at h3
          · subst hp; subst hs
            refine ⟨by simp [hcond, hw, hres, hW], rfl, r,
              Event.deployLiquityCall (resolveUseRealPriceFeed uP n) a
                (resolveOverridesGasPrice gp) :: evs, rfl, rfl, ?_⟩
            simp [hcond, hw, hres, hW]

/-! ## Helper lemmas about the file-system model -/

/-- Reading a just-written path returns the just-written contents. -/
theorem FS.readFile_writeFileSync (fs : FS) (p : List String) (c : String) :
    (fs.writeFileSync p c).readFile p = some c := by
  unfold FS.readFile FS.writeFileSync
  rw [List.find?_cons_of_pos _ (by simp)]
  rfl

/-- Writing a file does not change the directories. -/
theorem FS.dirs_writeFileSync (fs : FS) (p : List String) (c : String) :
    (fs.writeFileSync p c).dirs = fs.dirs := rfl

/-- Recursively creating the channel directory makes it and its parent exist. -/
theorem FS.mkdirRecursive_manifestDir (fs : FS) (ch : String) :
    ["deployments"] ∈ (fs.mkdirRecursive (manifestDir ch)).dirs ∧
    manifestDir ch ∈ (fs.mkdirRecursive (manifestDir ch)).dirs := by
  unfold FS.mkdirRecursive manifestDir
  constructor <;> simp [List.range_succ]

/-- Replaying a trace that ends with the manifest writer's two calls is the
replay of the prefix followed by the `mkdir` and the write. -/
theorem FS.runEvents_mkdir_write (fs : FS) (l : List Event) (d p : List String)
    (c : String) :
    FS.runEvents fs (l ++ [Event.mkdirRecursive d, Event.writeFile p c]) =
      ((FS.runEvents fs l).mkdirRecursive d).writeFileSync p c := by
  unfold FS.runEvents
  rw [List.foldl_append]
  rfl

/-! ## The claims -/

/-- C1 (counterexample): the end-to-end scenario of the claim — channel
`ci`, network `testnet`, `useRealPriceFeed := true`,
`createUniswapPair := true` — does not succeed: even in an environment where
every external call succeeds, the run stops with the configuration error
`PriceFeed not supported on testnet` and produces no event at all, so no
oracle wiring happens and no file `deployments/ci/testnet.json` is written
(`testnet` is not in `oracleAddresses`). -/
theorem testnet_ci_scenario_rejected :
    (deployTask sampleWorld "testnet" "ci" none (some true) (some true)).1 =
      Except.error (Err.config "PriceFeed not supported on testnet") ∧
    (deployTask sampleWorld "testnet" "ci" none (some true) (some true)).2 = [] :=
  ⟨rfl, rfl⟩

/-- C1 (amended): running the deploy task with channel `ci` on network
`testnet` with `useRealPriceFeed = true` and `createUniswapPair = true`
fails — in every environment and for every gas price — with the
configuration error `PriceFeed not supported on testnet`, before any
deployment call, oracle wiring or manifest write. -/
theorem testnet_ci_scenario_fails (w : World) (gp : Option FloatVal) :
    deployTask w "testnet" "ci" gp (some true) (some true) =
      (Except.error (Err.config "PriceFeed not supported on testnet"), []) := rfl

/-- C4: for every network without oracle support, invoking the deploy task
with `useRealPriceFeed = true` raises the configuration error
`PriceFeed not supported on <network>` (naming the network) and the trace is
empty, so no deployment call is made. -/
theorem realPriceFeed_unsupported_network_errors (w : World) (n ch : String)
    (gp : Option FloatVal) (cP : Option Bool) (h : hasOracles n = false) :
    deployTask w n ch gp (some true) cP =
      (Except.error (Err.config ("PriceFeed not supported on " ++ n)), []) := by
  unfold deployTask
  simp [resolveUseRealPriceFeed, h]

/-- C4 (witness): on the network `dev`, which has no oracles, requesting the
real price feed fails with the error naming `dev` before any event. -/
theorem realPriceFeed_unsupported_network_errors_witness :
    hasOracles "dev" = false ∧
    deployTask sampleWorld "dev" "default" none (some true) none =
      (Except.error (Err.config ("PriceFeed not supported on " ++ "dev")), []) :=
  ⟨rfl, realPriceFeed_unsupported_network_errors sampleWorld "dev" "default"
    none none rfl⟩

/-- C6: when `useRealPriceFeed` is unset, it resolves to true exactly on the
designated production network `mainnet` (and to false on every other
network), and the run then calls `deployLiquity` with that resolved flag. -/
theorem useRealPriceFeed_default_resolution (w : World) (n ch : String)
    (gp : Option FloatVal) :
    resolveUseRealPriceFeed none n = decide (n = "mainnet") ∧
    Event.deployLiquityCall (decide (n = "mainnet")) none
        (resolveOverridesGasPrice gp) ∈ (deployTask w n ch gp none none).2 := by
  have hres : resolveUseRealPriceFeed none n = decide (n = "mainnet") := by
    simp [resolveUseRealPriceFeed, beq_eq_decide]
  refine ⟨hres, ?_⟩
  have hcond : (resolveUseRealPriceFeed none n && !hasOracles n) = false := by
    rw [hres]
    by_cases hn : n = "mainnet"
    · subst hn; rfl
    · simp [hn]
  obtain ⟨rest, htr⟩ := deployTask_trace_cons w n ch gp none none none hcond rfl
  rw [htr, ← hres]
  exact List.mem_cons_self _ _

/-- C9: the dev network's account list has length `numAccounts` (100), its
head is the configured deployer key, its second entry is the fixed
well-known rich key, and `generateRandomAccounts` returns exactly as many
keys as asked. -/
theorem dev_account_list_shape :
    ∀ (createRandom : Nat → String) (deployerAccount : String),
      (devAccounts createRandom deployerAccount).length = numAccounts ∧
      (devAccounts createRandom deployerAccount)[0]? = some deployerAccount ∧
      (devAccounts createRandom deployerAccount)[1]? = some devChainRichAccount ∧
      ∀ k, (generateRandomAccounts createRandom k).length = k := by
  intro cr d
  refine ⟨?_, rfl, rfl, fun k => by simp [generateRandomAccounts]⟩
  simp [devAccounts, generateRandomAccounts, numAccounts]

/-- C10: an omitted `gasPrice` leaves the overrides gas price `undefined`,
and a `gasPrice` of exactly zero short-circuits `gasPrice && ...` to the raw
number zero instead of a hex-encoded wei string, so zero is never
unit-converted. -/
theorem gasPrice_edge_cases :
    resolveOverridesGasPrice none = OverridesGasPrice.undef ∧
    ∀ e : Nat, resolveOverridesGasPrice (some ⟨0, e⟩) =
      OverridesGasPrice.num ⟨0, e⟩ :=
  ⟨rfl, fun _ => rfl⟩

/-- C2 (counterexample): at the provided decimal gas price `0` the overrides
gas price is the raw number `0` (the JavaScript short-circuit), not the hex
encoding of its wei value, so the claim does not hold for every provided
decimal gas price. -/
theorem gasPrice_zero_not_hex :
    resolveOverridesGasPrice (some ⟨0, 0⟩) ≠
      OverridesGasPrice.hexStr (toHexString (gweiToWei ⟨0, 0⟩)) ∧
    resolveOverridesGasPrice (some ⟨0, 0⟩) = OverridesGasPrice.num ⟨0, 0⟩ :=
  ⟨by decide, rfl⟩

/-- C2 (amended): for every provided nonzero decimal gas price with at most
nine fractional digits (so its wei value is integral), the overrides gas
price is the hex encoding of the equivalent wei value; in particular a gas
price of 20 Gwei yields the hex encoding of 20000000000 wei. -/
theorem gasPrice_hex_conversion (m e : Nat) (hm : m ≠ 0) (he : e ≤ 9) :
    resolveOverridesGasPrice (some ⟨m, e⟩) =
      OverridesGasPrice.hexStr (toHexString (gweiToWei ⟨m, e⟩)) := by
  obtain ⟨k, hk⟩ : ∃ k, e + k = 9 := ⟨9 - e, by omega⟩
  have h10e : (0:Nat) < 10 ^ e := pow_pos (by norm_num) e
  have h10n : (0:Nat) < 10 ^ 9 := pow_pos (by norm_num) 9
  have hfrom : decimalFrom ⟨m, e⟩ = m * 10 ^ k * 10 ^ 9 := by
    show m * 10 ^ 18 / 10 ^ e = m * 10 ^ k * 10 ^ 9
    have h18 : (10:Nat) ^ 18 = 10 ^ k * 10 ^ 9 * 10 ^ e := by
      rw [← pow_add, ← pow_add]; congr 1; omega
    rw [h18,
      show m * (10 ^ k * 10 ^ 9 * 10 ^ e) = m * (10 ^ k * 10 ^ 9) * 10 ^ e from by
        ring,
      Nat.mul_div_cancel _ h10e, ← mul_assoc]
  have hdiv : decimalDivNat (decimalFrom ⟨m, e⟩) 1000000000 = m * 10 ^ k := by
    unfold decimalDivNat
    rw [hfrom, Nat.mul_div_mul_right _ _
      (show (0:Nat) < decimalPrecision from pow_pos (by norm_num) 18)]
    rw [show (1000000000:Nat) = 10 ^ 9 from by norm_num, Nat.mul_div_cancel _ h10n]
  have hwei : gweiToWei ⟨m, e⟩ = m * 10 ^ k := by
    show m * 10 ^ 9 / 10 ^ e = m * 10 ^ k
    have h9 : (10:Nat) ^ 9 = 10 ^ k * 10 ^ e := by rw [← pow_add]; congr 1; omega
    rw [h9, ← mul_assoc, Nat.mul_div_cancel _ h10e]
  simp [resolveOverridesGasPrice, hm, hdiv, hwei]

/-- C2 (witness): the amended conversion at the concrete gas price 20 Gwei:
the overrides gas price is the hex encoding of 20000000000 wei. -/
theorem gasPrice_hex_conversion_witness :
    (20 : Nat) ≠ 0 ∧ (0 : Nat) ≤ 9 ∧
    resolveOverridesGasPrice (some ⟨20, 0⟩) =
      OverridesGasPrice.hexStr (toHexString 20000000000) ∧
    toHexString 20000000000 = "0x04a817c800" :=
  ⟨by decide, by decide, by exact gasPrice_hex_conversion 20 0 (by decide) (by decide),
    by decide⟩

/-- C3: in a run whose validation passed and whose deployment succeeded with
a non-test price feed, the oracle wiring step executes (its adapter
deployment call appears in the trace) exactly when the resolved
`useRealPriceFeed` is true and the network has oracles; and when the adapter
deployment returns an address, the trace contains the adapter deployment
immediately followed by the `setAddresses` call whose adapter argument is
exactly the returned address. -/
theorem oracle_wiring_iff_and_ordering (w : World) (n ch : String)
    (gp : Option FloatVal) (uP cP : Option Bool) (a : Option String)
    (r : RawDeployment)
    (hw : resolveWiotxAddress cP n = Except.ok a)
    (hdep : w.deployResult = Except.ok r)
    (hpf : w.priceFeedIsTestnet = false) :
    ((∃ t g, Event.deployTellorCallerCall t g ∈ (deployTask w n ch gp uP cP).2) ↔
      (resolveUseRealPriceFeed uP n && hasOracles n) = true) ∧
    (∀ addr, w.tellorResult = Except.ok addr →
      (resolveUseRealPriceFeed uP n && hasOracles n) = true →
      ∃ pre post, (deployTask w n ch gp uP cP).2 =
        pre ++ Event.deployTellorCallerCall (oracleTellor n)
            (resolveOverridesGasPrice gp) ::
          Event.setAddressesCall (oracleChainlink n) addr
            (resolveOverridesGasPrice gp) :: post) := by
  rcases hu : resolveUseRealPriceFeed uP n with _ | _
  · -- resolved flag is false: no wiring
    have hcond : (resolveUseRealPriceFeed uP n && !hasOracles n) = false := by
      rw [hu]; rfl
    constructor
    · unfold deployTask
      simp [hcond, hw, hdep, hu, oracleWiring]
    · intro addr _ hc
      simp at hc
  · by_cases ho : hasOracles n = true
    · -- flag true, oracles present: wiring runs
      have hcond : (resolveUseRealPriceFeed uP n && !hasOracles n) = false := by
        rw [hu, ho]; rfl
      constructor
      · constructor
        · intro _; simp [ho]
        · intro _
          rcases ht : w.tellorResult with e | addr
          · refine ⟨oracleTellor n, resolveOverridesGasPrice gp, ?_⟩
            unfold deployTask
            simp [hcond, hw, hdep, oracleWiring, hu, hpf, ho, ht]
          · rcases hs : w.setAddressesResult with e | u2
            · refine ⟨oracleTellor n, resolveOverridesGasPrice gp, ?_⟩
              unfold deployTask
              simp [hcond, hw, hdep, oracleWiring, hu, hpf, ho, ht, hs]
            · refine ⟨oracleTellor n, resolveOverridesGasPrice gp, ?_⟩
              unfold deployTask
              simp [hcond, hw, hdep, oracleWiring, hu, hpf, ho, ht, hs]
      · intro addr ht _
        rcases hs : w.setAddressesResult with e | u2
        · refine ⟨[Event.deployLiquityCall true a (resolveOverridesGasPrice gp)],
            [], ?_⟩
          unfold deployTask
          simp [hcond, hw, hdep, oracleWiring, hu, hpf, ho, ht, hs]
        · refine ⟨[Event.deployLiquityCall true a (resolveOverridesGasPrice gp)],
            [Event.mkdirRecursive (manifestDir ch),
              Event.writeFile (manifestPath ch n)
                (stringifyDeployment (stampVersion r w.contractsVersion))], ?_⟩
          unfold deployTask
          simp [hcond, hw, hdep, oracleWiring, hu, hpf, ho, ht, hs]
    · -- flag true, no oracles: validation stops the run before any event
      have hcond : (resolveUseRealPriceFeed uP n && !hasOracles n) = true := by
        rw [hu]; simp [ho]
      constructor
      · constructor
        · intro hex
          exfalso
          rcases hex with ⟨t, g, hmem⟩
          unfold deployTask at hmem
          simp [hcond] at hmem
        · intro hc
          simp [ho] at hc
      · intro addr _ hc
        simp [ho] at hc

/-- C3 (witness): on `mainnet` with `useRealPriceFeed := true` in a fully
successful environment, the wiring condition and the ordering statement hold
concretely. -/
theorem oracle_wiring_iff_and_ordering_witness :
    ((∃ t g, Event.deployTellorCallerCall t g ∈
        (deployTask sampleWorld "mainnet" "ci" none (some true) none).2) ↔
      (resolveUseRealPriceFeed (some true) "mainnet" && hasOracles "mainnet") =
        true) ∧
    (∀ addr, sampleWorld.tellorResult = Except.ok addr →
      (resolveUseRealPriceFeed (some true) "mainnet" && hasOracles "mainnet") =
        true →
      ∃ pre post, (deployTask sampleWorld "mainnet" "ci" none (some true) none).2 =
        pre ++ Event.deployTellorCallerCall (oracleTellor "mainnet")
            (resolveOverridesGasPrice none) ::
          Event.setAddressesCall (oracleChainlink "mainnet") addr
            (resolveOverridesGasPrice none) :: post) :=
  oracle_wiring_iff_and_ordering sampleWorld "mainnet" "ci" none (some true) none
    none ⟨[("priceFeed", "0x1111")]⟩ rfl rfl rfl

/-- C5: for every network without a wrapped-native-token address, invoking
the deploy task with `createUniswapPair = true` raises a configuration error
naming the network (either the price-feed check or the WETH check fires
first, both name the network) with an empty trace, so before any deployment
call; and whenever `createUniswapPair` is not true, the `deployLiquity` call
receives no wrapped-token address (`wiotxAddress` stays undefined). -/
theorem uniswapPair_unsupported_network_errors (w : World) (n ch : String)
    (gp : Option FloatVal) (uP : Option Bool) :
    (hasWIOTX n = false →
      ∃ msg, deployTask w n ch gp uP (some true) =
          (Except.error (Err.config msg), []) ∧
        (msg = "PriceFeed not supported on " ++ n ∨
          msg = "WETH not deployed on " ++ n)) ∧
    (∀ cP u a g, cP ≠ some true →
      Event.deployLiquityCall u a g ∈ (deployTask w n ch gp uP cP).2 →
      a = none) := by
  constructor
  · intro h
    by_cases hcond : (resolveUseRealPriceFeed uP n && !hasOracles n) = true
    · refine ⟨"PriceFeed not supported on " ++ n, ?_, Or.inl rfl⟩
      unfold deployTask
      simp [hcond]
    · refine ⟨"WETH not deployed on " ++ n, ?_, Or.inr rfl⟩
      have hwx : resolveWiotxAddress (some true) n =
          Except.error (Err.config ("WETH not deployed on " ++ n)) := by
        unfold resolveWiotxAddress
        simp [h]
      unfold deployTask
      simp [hcond, hwx]
  · intro cP u a g hcP hmem
    have hwx : resolveWiotxAddress cP n = Except.ok none := by
      unfold resolveWiotxAddress
      rcases cP with _ | b
      · rfl
      · rcases b with _ | _
        · rfl
        · exact absurd rfl hcP
    unfold deployTask at hmem
    by_cases hcond : (resolveUseRealPriceFeed uP n && !hasOracles n) = true
    · simp [hcond] at hmem
    · rcases hres : w.deployResult with e | r
      · simp [hcond, hwx, hres] at hmem
        exact hmem.2.1
      · rcases hW : oracleWiring w n (resolveOverridesGasPrice gp)
          (resolveUseRealPriceFeed uP n) with ⟨res, evs⟩
        rcases res with e | u2
        · simp [hcond, hwx, hres, hW] at hmem
          rcases hmem with ⟨_, h2, _⟩ | h2
          · exact h2
          · rcases oracleWiring_events w n (resolveOverridesGasPrice gp)
                (resolveUseRealPriceFeed uP n) (Event.deployLiquityCall u a g)
                (by rw [hW]; exact h2) with ⟨t, g2, h3⟩ | ⟨c, t, g2, h3⟩ <;>
              simp at h3
        · simp [hcond, hwx, hres, hW] at hmem
          rcases hmem with ⟨_, h2, _⟩ | h2
          · exact h2
          · rcases oracleWiring_events w n (resolveOverridesGasPrice gp)
                (resolveUseRealPriceFeed uP n) (Event.deployLiquityCall u a g)
                (by rw [hW]; exact h2) with ⟨t, g2, h3⟩ | ⟨c, t, g2, h3⟩ <;>
              simp at h3

/-- C7: in every run, a manifest write happens only in a successful run — it
is the trace's last action, at the manifest path, carrying the serialization
of the complete version-stamped record — and if the run ends in any error
(validation, deployment, assertion or wiring), no manifest write appears in
the trace. -/
theorem manifest_only_after_success (w : World) (n ch : String)
    (gp : Option FloatVal) (uP cP : Option Bool) :
    (∀ e, (deployTask w n ch gp uP cP).1 = Except.error e →
      ∀ p s, Event.writeFile p s ∉ (deployTask w n ch gp uP cP).2) ∧
    (∀ p s, Event.writeFile p s ∈ (deployTask w n ch gp uP cP).2 →
      (deployTask w n ch gp uP cP).1 = Except.ok () ∧ p = manifestPath ch n ∧
      ∃ r pre, w.deployResult = Except.ok r ∧
        s = stringifyDeployment (stampVersion r w.contractsVersion) ∧
        (deployTask w n ch gp uP cP).2 =
          pre ++ [Event.mkdirRecursive (manifestDir ch), Event.writeFile p s]) := by
  constructor
  · intro e he p s hmem
    have h := (deployTask_write_mem w n ch gp uP cP p s hmem).1
    rw [he] at h
    exact absurd h (by simp)
  · intro p s hmem
    exact deployTask_write_mem w n ch gp uP cP p s hmem

/-- C8: after any two successful runs for the same channel and network, the
channel directory and its parent exist (created recursively), and the file
at `deployments/<channel>/<network>.json` holds exactly the indented JSON
serialization of the second run's version-stamped record — the second write
fully replaces the first. -/
theorem manifest_writer_behaviour (fs : FS) (w1 w2 : World) (n ch : String)
    (gp1 gp2 : Option FloatVal) (uP1 cP1 uP2 cP2 : Option Bool)
    (r2 : RawDeployment)
    (_h1 : (deployTask w1 n ch gp1 uP1 cP1).1 = Except.ok ())
    (h2 : (deployTask w2 n ch gp2 uP2 cP2).1 = Except.ok ())
    (hr2 : w2.deployResult = Except.ok r2) :
    FS.readFile
        (FS.runEvents (FS.runEvents fs (deployTask w1 n ch gp1 uP1 cP1).2)
          (deployTask w2 n ch gp2 uP2 cP2).2) (manifestPath ch n) =
      some (stringifyDeployment (stampVersion r2 w2.contractsVersion)) ∧
    ["deployments"] ∈
      (FS.runEvents (FS.runEvents fs (deployTask w1 n ch gp1 uP1 cP1).2)
        (deployTask w2 n ch gp2 uP2 cP2).2).dirs ∧
    manifestDir ch ∈
      (FS.runEvents (FS.runEvents fs (deployTask w1 n ch gp1 uP1 cP1).2)
        (deployTask w2 n ch gp2 uP2 cP2).2).dirs := by
  obtain ⟨r2x, pre2, hr2x, htr2⟩ := deployTask_ok_trace w2 n ch gp2 uP2 cP2 h2
  rw [hr2] at hr2x
  injection hr2x with hr2eq
  subst hr2eq
  rw [htr2, FS.runEvents_mkdir_write]
  refine ⟨FS.readFile_writeFileSync _ _ _, ?_, ?_⟩
  · rw [FS.dirs_writeFileSync]
    exact (FS.mkdirRecursive_manifestDir _ ch).1
  · rw [FS.dirs_writeFileSync]
    exact (FS.mkdirRecursive_manifestDir _ ch).2

/-- C8 (witness): two concrete successful runs on `dev`, channel `default`:
the file at the manifest path afterwards holds the second run's record. -/
theorem manifest_writer_behaviour_witness :
    (deployTask sampleWorld "dev" "default" none (some false) none).1 =
      Except.ok () ∧
    (deployTask sampleWorld2 "dev" "default" none (some false) none).1 =
      Except.ok () ∧
    FS.readFile
        (FS.runEvents
          (FS.runEvents ⟨[], []⟩
            (deployTask sampleWorld "dev" "default" none (some false) none).2)
          (deployTask sampleWorld2 "dev" "default" none (some false) none).2)
        (manifestPath "default" "dev") =
      some (stringifyDeployment
        (stampVersion ⟨[("priceFeed", "0x3333")]⟩ "2.0.0")) :=
  ⟨rfl, rfl,
    (manifest_writer_behaviour ⟨[], []⟩ sampleWorld sampleWorld2 "dev" "default"
      none none (some false) none (some false) none ⟨[("priceFeed", "0x3333")]⟩
      rfl rfl rfl).1⟩

end LibEthers
